import Mathlib

/-!
Shallow embedding of the worker/reactor communication layer of the `gloo`
worker crate (files `spawner.rs`, `reactor/bridge.rs`, `traits.rs`,
`actor/mod.rs`, `reactor/registrar.rs`), together with theorems settling the
frozen claims about it.

Conventions of the embedding:
* `HandlerId` is modelled as `Nat` (the source type is an opaque
  monotonically allocated integer token).
* Rust closures held behind `Rc`/`Weak` are modelled by an abstract identity
  (`Nat`); whether a `Weak` upgrade succeeds is given by a liveness
  environment `live : Nat → Bool` (the strong owner being alive or dropped).
* Side effects of the inbound handler (posting bytes to the physical worker,
  invoking an output callback) are made explicit as event lists in the
  result of each step function.
* The unbounded mpsc channel of the `pinned` crate (an external dependency)
  is modelled as a FIFO buffer with a closed flag: `send_now` appends when
  the channel is open and is rejected when closed; `close_now` closes;
  the receiver yields buffered items in order and terminates once the
  buffer is drained and the channel is closed.
-/

namespace Gloo

/-- The `Poll` result of a Rust future/stream/sink poll. -/
inductive Poll (A : Type) where
  | ready (a : A)
  | pending
deriving Repr, DecidableEq

/-! ### Delivery channel (model of the external `pinned::mpsc` unbounded channel) -/

/-- An unbounded mpsc channel: a FIFO buffer of not-yet-received items and a
closed flag. This models the external dependency `pinned::mpsc`. -/
structure Channel (A : Type) where
  buf : List A
  closed : Bool
deriving Repr, DecidableEq

/-- A freshly created channel: empty and open (`mpsc::unbounded`). -/
def Channel.unbounded {A : Type} : Channel A := ⟨[], false⟩

/-- `UnboundedSender::send_now`: append the item when the channel is open
(returns success), reject it when the channel is closed. -/
def Channel.send_now {A : Type} (c : Channel A) (x : A) : Channel A × Bool :=
  if c.closed then (c, false) else ({ c with buf := c.buf ++ [x] }, true)

/-- `UnboundedSender::close_now`: close the channel. -/
def Channel.close_now {A : Type} (c : Channel A) : Channel A :=
  { c with closed := true }

/-- `UnboundedReceiver::poll_next`: yield the oldest buffered item; when the
buffer is drained, terminate (`ready none`) if the channel is closed and
suspend (`pending`) otherwise. -/
def Channel.poll_next {A : Type} (c : Channel A) : Channel A × Poll (Option A) :=
  match c.buf with
  | x :: rest => ({ c with buf := rest }, Poll.ready (some x))
  | [] => if c.closed then (c, Poll.ready none) else (c, Poll.pending)

/-- `UnboundedReceiver::is_terminated` (`FusedStream`): the receiver is
terminated when the channel is closed and the buffer is drained. -/
def Channel.is_terminated {A : Type} (c : Channel A) : Bool :=
  c.closed && c.buf.isEmpty

/-! ### Reactor envelopes (`reactor/messages.rs`) -/

/-- `ReactorInput`: caller-to-worker envelope of the reactor layer. -/
inductive ReactorInput (I : Type) where
  | input (msg : I)
deriving Repr, DecidableEq

/-- `ReactorOutput`: worker-to-caller envelope of the reactor layer; `finish`
means no further output will ever arrive for this connection. -/
inductive ReactorOutput (O : Type) where
  | output (msg : O)
  | finish
deriving Repr, DecidableEq

/-! ### Reactor bridge output callback (`reactor/bridge.rs`, lines 49-61) -/

/-- `ReactorBridge::output_callback`: on `Output(m)`, send `m` into the
delivery channel, discarding the send result; on `Finish`, close the
delivery channel. -/
def output_callback {O : Type} (c : Channel O) : ReactorOutput O → Channel O
  | ReactorOutput.output m => (c.send_now m).1
  | ReactorOutput.finish => c.close_now

/-- Deliver a whole list of reactor outputs to the callback in order. -/
def deliverOutputs {O : Type} (c : Channel O) (outs : List (ReactorOutput O)) :
    Channel O :=
  outs.foldl output_callback c

theorem output_callback_closed {O : Type} (c : Channel O) (m : O)
    (h : c.closed = true) : output_callback c (ReactorOutput.output m) = c := by
  simp [output_callback, Channel.send_now, h]

theorem deliverOutputs_closed_of_outputsOnly {O : Type} (c : Channel O)
    (ms : List O) (h : c.closed = true) :
    deliverOutputs c (ms.map ReactorOutput.output) = c := by
  induction ms with
  | nil => rfl
  | cons m rest ih =>
      simp [deliverOutputs, List.foldl] at ih ⊢
      rw [output_callback_closed c m h]
      exact ih

/-- C1: once the output callback observes `Finish` (closing the delivery
channel), every subsequent `ReactorOutput::Output` delivered to the callback
leaves the channel — hence the connection's output stream — entirely
unchanged: no item is ever buffered again, the channel stays closed, and
polling a drained closed channel permanently yields termination. -/
theorem finish_is_terminal {O : Type} (c : Channel O) (ms : List O) :
    deliverOutputs (output_callback c ReactorOutput.finish)
        (ms.map ReactorOutput.output)
      = output_callback c ReactorOutput.finish
    ∧ (output_callback c ReactorOutput.finish).closed = true
    ∧ (Channel.poll_next { buf := ([] : List O), closed := true })
      = (⟨[], true⟩, Poll.ready none) := by
  have hclosed : (output_callback c ReactorOutput.finish).closed = true := rfl
  refine ⟨?_, hclosed, rfl⟩
  exact deliverOutputs_closed_of_outputsOnly _ ms hclosed

/-! ### Spawner shared state and inbound handler (`spawner.rs`, lines 79-142) -/

/-- `HandlerId`, modelled as a natural number token. -/
abbrev HandlerId := Nat

/-- The `FromWorker` envelope unpacked by the inbound handler: either the
`WorkerLoaded` readiness control signal or an addressed `ProcessOutput`. -/
inductive FromWorker (O : Type) where
  | workerLoaded
  | processOutput (id : HandlerId) (out : O)
deriving Repr, DecidableEq

/-- The state shared between all bridges of one spawned worker:
* `pending`: the pending queue, `some q` while still buffering (an active
  buffer holding `q` in FIFO order), `none` once taken/closed —
  `Rc<RefCell<Option<Vec<ToWorker>>>>` in the source;
* `callbacks`: the callback registry, mapping a `HandlerId` to the identity
  of the weakly referenced output-callback closure —
  `Rc<RefCell<HashMap<HandlerId, Weak<dyn Fn(Output)>>>>` in the source. -/
structure SharedState (M : Type) where
  pending : Option (List M)
  callbacks : HandlerId → Option Nat

/-- The observable result of one inbound-handler invocation: the new shared
state, the payloads posted to the physical worker during the step (in
order), and the callback invocations performed during the step (callback
identity paired with the payload, in order). -/
structure StepResult (M O : Type) where
  state : SharedState M
  posted : List M
  invoked : List (Nat × O)

/-- Removal of one registry entry (`HashMap::remove`). -/
def removeCallback {M : Type} (s : SharedState M) (id : HandlerId) :
    SharedState M :=
  { s with callbacks := fun k => if k = id then none else s.callbacks k }

/-- The single inbound-message handler installed by `Spawner::spawn`
(spawner.rs lines 96-118), one invocation on one decoded envelope:
* `WorkerLoaded`: take the pending queue (leaving `none`); if it was still
  active, post every buffered payload to the physical worker in order;
* `ProcessOutput(id, out)`: look up `id` in the registry; if absent, no-op;
  if the weak reference upgrades (the callback identity is live), invoke the
  callback with the payload; otherwise remove the entry.
`live` tells which callback identities still have a live strong owner. -/
def handleInbound {M O : Type} (live : Nat → Bool) (s : SharedState M) :
    FromWorker O → StepResult M O
  | FromWorker.workerLoaded =>
    match s.pending with
    | some q => ⟨{ s with pending := none }, q, []⟩
    | none => ⟨s, [], []⟩
  | FromWorker.processOutput id out =>
    match s.callbacks id with
    | some cb =>
        if live cb then ⟨s, [], [(cb, out)]⟩
        else ⟨removeCallback s id, [], []⟩
    | none => ⟨s, [], []⟩

/-- Run the inbound handler over a whole list of envelopes, threading the
shared state. -/
def runInbound {M O : Type} (live : Nat → Bool) (s : SharedState M) :
    List (FromWorker O) → SharedState M
  | [] => s
  | msg :: rest => runInbound live (handleInbound live s msg).state rest

/-- Modelled from the spec: `Bridge::send` (the file `bridge.rs` holding
`Bridge` is not among the provided sources). Per §4.4, encode the message
and, if the pending queue is still active, append it preserving order;
otherwise transmit it immediately to the physical worker. The second
component lists the payloads transmitted immediately. -/
def bridgeSend {M : Type} (s : SharedState M) (m : M) : SharedState M × List M :=
  match s.pending with
  | some q => ({ s with pending := some (q ++ [m]) }, [])
  | none => (s, [m])

/-! ### Spawner construction (`spawner.rs`, lines 56-142) -/

/-- The `Spawner` builder: it records only the optionally configured
first-connection output callback (modelled by its identity). -/
structure SpawnerM where
  callback : Option Nat
deriving Repr, DecidableEq

/-- `Spawner::new`: no callback configured. -/
def SpawnerM.new : SpawnerM := ⟨none⟩

/-- `Spawner::callback`: configure the first connection's output callback. -/
def SpawnerM.setCallback (_sp : SpawnerM) (cb : Nat) : SpawnerM := ⟨some cb⟩

/-- Modelled from the spec: `HandlerId::new` (the file `handler_id.rs` is not
among the provided sources). Per §4.1/§3, ids are allocated from a
process-wide monotone counter and never reused: given the counter, return
the fresh id and the advanced counter. -/
def HandlerId.fresh (ctr : Nat) : HandlerId × Nat := (ctr, ctr + 1)

/-- What `Spawner::spawn` sets up before returning the first bridge. -/
structure SpawnResult (M : Type) where
  handlerId : HandlerId
  state : SharedState M
  nextCtr : Nat

/-- `Spawner::spawn` (spawner.rs lines 79-142), the shared-state setup:
create the pending queue as an active empty buffer, allocate one fresh
`HandlerId`, create one callback registry that is empty except — when a
callback was configured — for a single weak entry under the fresh id. -/
def SpawnerM.spawn {M : Type} (sp : SpawnerM) (ctr : Nat) : SpawnResult M :=
  let pending : Option (List M) := some []
  let fr := HandlerId.fresh ctr
  let callbacks : HandlerId → Option Nat :=
    match sp.callback with
    | some cb => fun k => if k = fr.1 then some cb else none
    | none => fun _ => none
  ⟨fr.1, ⟨pending, callbacks⟩, fr.2⟩

/-! ### Worker trait (`traits.rs`, lines 8-45) -/

/-- The `Worker` trait as a record of its five lifecycle hooks plus
`create`. `&mut self` methods are modelled as state transformers on the
worker state `St`; `Sc` is the scope, `Msg`/`Inp` the update/input message
types. The fields `connected`, `disconnected` and `destroy` carry the
trait's default bodies as Lean default field values: `connected` and
`disconnected` do nothing, `destroy` does nothing and returns `true`. -/
structure WorkerImpl (St Sc Msg Inp : Type) where
  create : Sc → St
  update : St → Sc → Msg → St
  received : St → Sc → Inp → HandlerId → St
  connected : St → Sc → HandlerId → St := fun st _ _ => st
  disconnected : St → Sc → HandlerId → St := fun st _ _ => st
  destroy : St → Sc → St × Bool := fun st _ => (st, true)

/-- A worker implementation that supplies only the required members
(`create`, `update`, `received`) and overrides nothing. -/
def WorkerImpl.minimal {St Sc Msg Inp : Type} (c : Sc → St)
    (u : St → Sc → Msg → St) (r : St → Sc → Inp → HandlerId → St) :
    WorkerImpl St Sc Msg Inp :=
  { create := c, update := u, received := r }

/-! ### Reactor bridge state and sink operations (`reactor/bridge.rs`) -/

/-- `ReactorBridgeSinkError` (reactor/bridge.rs lines 119-124): the only
sink error, raised on an attempt to close the bridge via the sink. -/
inductive ReactorBridgeSinkError where
  | attemptClosure
deriving Repr, DecidableEq

/-- A `ReactorBridge`: the inner `WorkerBridge` (modelled by the shared
state it reaches plus the log of envelopes it has transmitted immediately)
and the receiving end `rx` of the dedicated delivery channel. -/
structure ReactorBridgeM (I O : Type) where
  inner : SharedState (ReactorInput I)
  innerPosted : List (ReactorInput I)
  rx : Channel O

/-- `WorkerBridge::send` as seen from a reactor bridge: run `bridgeSend` on
the shared state and log whatever was transmitted immediately. -/
def ReactorBridgeM.sendInner {I O : Type} (b : ReactorBridgeM I O)
    (m : ReactorInput I) : ReactorBridgeM I O :=
  let r := bridgeSend b.inner m
  { b with inner := r.1, innerPosted := b.innerPosted ++ r.2 }

/-- `ReactorBridge::send_input` (reactor/bridge.rs lines 89-91): wrap the
message in the `Input` envelope and forward it via the inner bridge. -/
def ReactorBridgeM.send_input {I O : Type} (b : ReactorBridgeM I O) (msg : I) :
    ReactorBridgeM I O :=
  b.sendInner (ReactorInput.input msg)

/-- `Sink::poll_close` (reactor/bridge.rs lines 132-134): always ready with
the `AttemptClosure` error, touching nothing. -/
def ReactorBridgeM.poll_close {I O : Type} (b : ReactorBridgeM I O) :
    ReactorBridgeM I O × Poll (Except ReactorBridgeSinkError Unit) :=
  (b, Poll.ready (Except.error ReactorBridgeSinkError.attemptClosure))

/-- `Sink::poll_flush` (reactor/bridge.rs lines 136-138): always ready Ok. -/
def ReactorBridgeM.poll_flush {I O : Type} (b : ReactorBridgeM I O) :
    ReactorBridgeM I O × Poll (Except ReactorBridgeSinkError Unit) :=
  (b, Poll.ready (Except.ok ()))

/-- `Sink::poll_ready` (reactor/bridge.rs lines 140-142): always ready Ok. -/
def ReactorBridgeM.poll_ready {I O : Type} (b : ReactorBridgeM I O) :
    ReactorBridgeM I O × Poll (Except ReactorBridgeSinkError Unit) :=
  (b, Poll.ready (Except.ok ()))

/-- `Sink::start_send` (reactor/bridge.rs lines 144-151): `send_input` then
return Ok. -/
def ReactorBridgeM.start_send {I O : Type} (b : ReactorBridgeM I O) (item : I) :
    ReactorBridgeM I O × Except ReactorBridgeSinkError Unit :=
  (b.send_input item, Except.ok ())

/-! ### Helper lemmas on the inbound handler -/

theorem handleInbound_workerLoaded_of_taken {M O : Type} (live : Nat → Bool)
    (s : SharedState M) (h : s.pending = none) :
    handleInbound live s (FromWorker.workerLoaded : FromWorker O)
      = ⟨s, [], []⟩ := by
  simp [handleInbound, h]

theorem handleInbound_pending_eq {M O : Type} (live : Nat → Bool)
    (s : SharedState M) (msg : FromWorker O) (h : s.pending = none) :
    (handleInbound live s msg).state.pending = none := by
  cases msg with
  | workerLoaded => simp [handleInbound, h]
  | processOutput id out =>
      cases hc : s.callbacks id with
      | none => simpa [handleInbound, hc] using h
      | some cb =>
          by_cases hl : live cb <;>
            simpa [handleInbound, hc, hl, removeCallback] using h

theorem runInbound_pending_eq {M O : Type} (live : Nat → Bool)
    (s : SharedState M) (msgs : List (FromWorker O)) (h : s.pending = none) :
    (runInbound live s msgs).pending = none := by
  induction msgs generalizing s with
  | nil => simpa [runInbound] using h
  | cons msg rest ih =>
      simp only [runInbound]
      exact ih _ (handleInbound_pending_eq live s msg h)

theorem handleInbound_callbacks_absent {M O : Type} (live : Nat → Bool)
    (s : SharedState M) (msg : FromWorker O) (k : HandlerId)
    (h : s.callbacks k = none) :
    (handleInbound live s msg).state.callbacks k = none := by
  cases msg with
  | workerLoaded =>
      cases hp : s.pending <;> simpa [handleInbound, hp] using h
  | processOutput id out =>
      cases hc : s.callbacks id with
      | none => simpa [handleInbound, hc] using h
      | some cb =>
          by_cases hl : live cb
          · simpa [handleInbound, hc, hl] using h
          · by_cases hk : k = id <;>
              simp [handleInbound, hc, hl, removeCallback, hk, h]

theorem runInbound_callbacks_absent {M O : Type} (live : Nat → Bool)
    (s : SharedState M) (msgs : List (FromWorker O)) (k : HandlerId)
    (h : s.callbacks k = none) :
    (runInbound live s msgs).callbacks k = none := by
  induction msgs generalizing s with
  | nil => simpa [runInbound] using h
  | cons msg rest ih =>
      simp only [runInbound]
      exact ih _ (handleInbound_callbacks_absent live s msg k h)

/-! ### Claim theorems -/

/-- C2: dispatching `ProcessOutput(id, payload)` does exactly the three-way
case analysis of spawner.rs lines 106-116: absent entry means a silent
no-op; a present entry whose weak reference no longer upgrades is removed
with no invocation (so delivery after the owning bridge is dropped has no
observable callback effect); a resolvable entry means exactly one
synchronous invocation of that handler with the payload and nothing else. -/
theorem processOutput_dispatch {M O : Type} (live : Nat → Bool)
    (s : SharedState M) (id : HandlerId) (out : O) :
    (s.callbacks id = none →
      handleInbound live s (FromWorker.processOutput id out) = ⟨s, [], []⟩)
    ∧ (∀ cb, s.callbacks id = some cb → live cb = false →
      handleInbound live s (FromWorker.processOutput id out)
        = ⟨removeCallback s id, [], []⟩)
    ∧ (∀ cb, s.callbacks id = some cb → live cb = true →
      handleInbound live s (FromWorker.processOutput id out)
        = ⟨s, [], [(cb, out)]⟩) := by
  refine ⟨fun h => ?_, fun cb h hl => ?_, fun cb h hl => ?_⟩
  · simp [handleInbound, h]
  · simp [handleInbound, h, hl]
  · simp [handleInbound, h, hl]

/-- Fixture registry: one entry, handler id 0 held by callback identity 7. -/
def exCallbacks : HandlerId → Option Nat := fun k => if k = 0 then some 7 else none

/-- Fixture shared state over `Nat` payloads. -/
def exState : SharedState Nat := ⟨some [], exCallbacks⟩

theorem processOutput_dispatch_witness :
    handleInbound (fun _ => false) exState (FromWorker.processOutput 0 (5 : Nat))
      = ⟨removeCallback exState 0, [], []⟩ :=
  (processOutput_dispatch (fun _ => false) exState 0 5).2.1 7 rfl rfl

/-- C9: dispatching `ProcessOutput(id, payload)` never touches the registry
entry of any other handler id: entries at `k ≠ id` are always preserved, and
when the entry for `id` resolves the whole registry map is unchanged. -/
theorem processOutput_frame {M O : Type} (live : Nat → Bool)
    (s : SharedState M) (id k : HandlerId) (out : O) :
    (k ≠ id →
      (handleInbound live s (FromWorker.processOutput id out)).state.callbacks k
        = s.callbacks k)
    ∧ (∀ cb, s.callbacks id = some cb → live cb = true →
      (handleInbound live s (FromWorker.processOutput id out)).state.callbacks
        = s.callbacks) := by
  constructor
  · intro hk
    cases hc : s.callbacks id with
    | none => simp [handleInbound, hc]
    | some cb =>
        by_cases hl : live cb <;> simp [handleInbound, hc, hl, removeCallback, hk]
  · intro cb h hl
    simp [handleInbound, h, hl]

theorem processOutput_frame_witness :
    (handleInbound (fun _ => false) exState
        (FromWorker.processOutput 0 (5 : Nat))).state.callbacks 1
      = exState.callbacks 1 :=
  (processOutput_frame (fun _ => false) exState 0 1 5).1 (by decide)

/-- C3: the first `WorkerLoaded` takes the whole pending queue, leaves it
closed (`none`), and posts exactly the buffered payloads in FIFO order; from
then on, after any further inbound traffic, the queue remains closed and a
bridge send transmits immediately instead of buffering. -/
theorem workerLoaded_flush {M O : Type} (live : Nat → Bool) (s : SharedState M)
    (q : List M) (h : s.pending = some q) :
    (handleInbound live s (FromWorker.workerLoaded : FromWorker O)).posted = q
    ∧ (handleInbound live s
        (FromWorker.workerLoaded : FromWorker O)).state.pending = none
    ∧ ∀ (msgs : List (FromWorker O)) (m : M),
        (runInbound live
            (handleInbound live s
              (FromWorker.workerLoaded : FromWorker O)).state msgs).pending = none
        ∧ bridgeSend
            (runInbound live
              (handleInbound live s
                (FromWorker.workerLoaded : FromWorker O)).state msgs) m
          = (runInbound live
              (handleInbound live s
                (FromWorker.workerLoaded : FromWorker O)).state msgs, [m]) := by
  have h1 : (handleInbound live s
      (FromWorker.workerLoaded : FromWorker O)).posted = q := by
    simp [handleInbound, h]
  have h2 : (handleInbound live s
      (FromWorker.workerLoaded : FromWorker O)).state.pending = none := by
    simp [handleInbound, h]
  refine ⟨h1, h2, fun msgs m => ?_⟩
  have h3 := runInbound_pending_eq live _ msgs h2
  exact ⟨h3, by simp [bridgeSend, h3]⟩

theorem workerLoaded_flush_witness :
    (handleInbound (fun _ => false)
        (⟨some [1, 2, 3], exCallbacks⟩ : SharedState Nat)
        (FromWorker.workerLoaded : FromWorker Nat)).posted = [1, 2, 3] :=
  (workerLoaded_flush (fun _ => false) ⟨some [1, 2, 3], exCallbacks⟩
    [1, 2, 3] rfl).1

/-- C5: handling `WorkerLoaded` a second time — or after any further inbound
traffic — is an exact no-op: nothing is posted, nothing is invoked, and the
shared state (pending queue and callback registry) is returned unchanged,
because the first occurrence already took the queue's contents. -/
theorem workerLoaded_idempotent {M O : Type} (live : Nat → Bool)
    (s : SharedState M) (msgs : List (FromWorker O)) :
    handleInbound live
        (runInbound live
          (handleInbound live s (FromWorker.workerLoaded : FromWorker O)).state
          msgs)
        (FromWorker.workerLoaded : FromWorker O)
      = ⟨runInbound live
          (handleInbound live s (FromWorker.workerLoaded : FromWorker O)).state
          msgs, [], []⟩ := by
  have h2 : (handleInbound live s
      (FromWorker.workerLoaded : FromWorker O)).state.pending = none := by
    cases hp : s.pending <;> simp [handleInbound, hp]
  have h3 := runInbound_pending_eq live _ msgs h2
  exact handleInbound_workerLoaded_of_taken live _ h3

/-- C6: `Spawner::spawn` sets up exactly one pending queue, an active empty
buffer; allocates one fresh handler id from the counter; and the callback
registry holds exactly one weak entry for the configured callback under the
fresh id when one was configured, and is empty otherwise. -/
theorem spawn_setup {M : Type} (sp : SpawnerM) (ctr : Nat) :
    (sp.spawn ctr : SpawnResult M).state.pending = some []
    ∧ (sp.spawn ctr : SpawnResult M).handlerId = ctr
    ∧ (sp.spawn ctr : SpawnResult M).nextCtr = ctr + 1
    ∧ (∀ cb, sp.callback = some cb →
        (sp.spawn ctr : SpawnResult M).state.callbacks ctr = some cb
        ∧ ∀ k, k ≠ ctr → (sp.spawn ctr : SpawnResult M).state.callbacks k = none)
    ∧ (sp.callback = none →
        ∀ k, (sp.spawn ctr : SpawnResult M).state.callbacks k = none) := by
  refine ⟨rfl, rfl, rfl, fun cb h => ⟨?_, fun k hk => ?_⟩, fun h k => ?_⟩
  · simp [SpawnerM.spawn, HandlerId.fresh, h]
  · simp [SpawnerM.spawn, HandlerId.fresh, h, hk]
  · simp [SpawnerM.spawn, HandlerId.fresh, h]

theorem spawn_setup_witness :
    ((SpawnerM.new.setCallback 7).spawn 4 : SpawnResult Nat).state.callbacks 4
      = some 7 :=
  ((spawn_setup (SpawnerM.new.setCallback 7) 4).2.2.2.1 7 rfl).1

/-- C10: spawning with no configured callback yields an empty registry for
the first handler id, so every `ProcessOutput` addressed to that id — even
after any amount of further inbound traffic — is silently dropped: no
invocation, nothing posted, state unchanged. -/
theorem spawn_no_callback_input_only {M O : Type} (ctr : Nat)
    (live : Nat → Bool) (msgs : List (FromWorker O)) (out : O) :
    (∀ k, (SpawnerM.new.spawn ctr : SpawnResult M).state.callbacks k = none)
    ∧ handleInbound live
        (runInbound live (SpawnerM.new.spawn ctr : SpawnResult M).state msgs)
        (FromWorker.processOutput
          (SpawnerM.new.spawn ctr : SpawnResult M).handlerId out)
      = ⟨runInbound live (SpawnerM.new.spawn ctr : SpawnResult M).state msgs,
          [], []⟩ := by
  have hempty : ∀ k,
      (SpawnerM.new.spawn ctr : SpawnResult M).state.callbacks k = none := by
    intro k
    simp [SpawnerM.spawn, SpawnerM.new, HandlerId.fresh]
  refine ⟨hempty, ?_⟩
  have habs := runInbound_callbacks_absent live
    (SpawnerM.new.spawn ctr : SpawnResult M).state msgs
    (SpawnerM.new.spawn ctr : SpawnResult M).handlerId
    (hempty _)
  simp [handleInbound, habs]

/-- C4: polling the reactor sink's close operation always returns the typed
error `AttemptClosure` (never Ok) and mutates nothing: the inner worker
bridge state, the transmit log and the delivery channel are unchanged, and a
subsequent send behaves exactly as it would have before the call. -/
theorem poll_close_always_rejected {I O : Type} (b : ReactorBridgeM I O) :
    b.poll_close
      = (b, Poll.ready (Except.error ReactorBridgeSinkError.attemptClosure))
    ∧ (b.poll_close).1.inner = b.inner
    ∧ (b.poll_close).1.innerPosted = b.innerPosted
    ∧ (b.poll_close).1.rx = b.rx
    ∧ ∀ item : I, (b.poll_close).1.start_send item = b.start_send item :=
  ⟨rfl, rfl, rfl, rfl, fun _ => rfl⟩

/-- C7: the reactor sink never blocks or fails on the send path:
`poll_ready` and `poll_flush` are always ready Ok, and `start_send` always
returns Ok after wrapping the item in the `ReactorInput::Input` envelope and
forwarding it via the underlying worker bridge, leaving the delivery
channel untouched. -/
theorem sink_send_path {I O : Type} (b : ReactorBridgeM I O) (item : I) :
    b.poll_ready = (b, Poll.ready (Except.ok ()))
    ∧ b.poll_flush = (b, Poll.ready (Except.ok ()))
    ∧ (b.start_send item).2 = Except.ok ()
    ∧ (b.start_send item).1 = b.sendInner (ReactorInput.input item)
    ∧ (b.start_send item).1.rx = b.rx :=
  ⟨rfl, rfl, rfl, rfl, rfl⟩

/-- C8: in the `Worker` trait, a worker that supplies only the required
`create`, `update` and `received` gets the default `connected` and
`disconnected`, which are no-ops, and the default `destroy`, which changes
nothing and returns `true` (may close immediately); the required members
are exactly the three supplied. -/
theorem worker_trait_defaults {St Sc Msg Inp : Type} (c : Sc → St)
    (u : St → Sc → Msg → St) (r : St → Sc → Inp → HandlerId → St)
    (st : St) (sc : Sc) (id : HandlerId) :
    (WorkerImpl.minimal c u r).connected st sc id = st
    ∧ (WorkerImpl.minimal c u r).disconnected st sc id = st
    ∧ (WorkerImpl.minimal c u r).destroy st sc = (st, true)
    ∧ (WorkerImpl.minimal c u r).create = c
    ∧ (WorkerImpl.minimal c u r).update = u
    ∧ (WorkerImpl.minimal c u r).received = r :=
  ⟨rfl, rfl, rfl, rfl, rfl, rfl⟩

end Gloo
